import Mathlib

/-!
# Shallow embedding of the BunqJSClient signed-session core

This file embeds the session/installation state machine of
`src/BunqJSClient.ts` (class `BunqJSClient`) in Lean 4 and proves the
frozen claims about it.

Modelling conventions:
* JS `undefined`/`null` fields are `Option` values; JS falsiness of a
  numeric/absent field (`!x`) is `jsFalsy`.
* Timestamps and durations are `Int` milliseconds.
* A thrown JS exception is the `.error` side of an `Except`.
* `Session` fields that the claims touch are collected in `SessionState`;
  the client-level flags (`keepAlive`, `fetchingNewSession`) and the
  environment live in `ClientState`.
* Network and storage collaborators are passed in as explicit outcome
  arguments (`Except ApiError …`), since the code only ever awaits them.
-/

namespace BunqJSClient

/-- Decidable equality for `Except`, used to evaluate the concrete
counterexamples and witnesses. -/
instance {ε α : Type} [DecidableEq ε] [DecidableEq α] : DecidableEq (Except ε α) := by
  intro a b
  cases a <;> cases b
  case error.error x y =>
    exact if h : x = y then isTrue (by rw [h]) else isFalse (by intro hc; cases hc; exact h rfl)
  case ok.ok x y =>
    exact if h : x = y then isTrue (by rw [h]) else isFalse (by intro hc; cases hc; exact h rfl)
  case error.ok x y => exact isFalse (by intro hc; cases hc)
  case ok.error x y => exact isFalse (by intro hc; cases hc)

/-- A payload object holding at most one of the four recognised user keys,
as consumed by `getUserType` (BunqJSClient.ts lines 551-581).  The info
type is a parameter because the outer payload's infos and the nested
OAuth principals' infos carry different fields. -/
structure UserInfoP (α : Type) where
  UserCompany : Option α
  UserPerson : Option α
  UserLight : Option α
  UserApiKey : Option α
  deriving DecidableEq, Repr

/-- Info fields of a nested (requested-by / granted-by) principal used by
`parseOauthUser`: the numeric `id` (absent = JS `undefined`) and
`session_timeout` in seconds. -/
structure InnerInfo where
  id : Option Int
  session_timeout : Int
  deriving DecidableEq, Repr

/-- Info fields of an outer principal payload as used by `generateSession`
and `parseOauthUser`: its own `session_timeout` (read on the non-OAuth
branch), its `id`, and the two nested principal payloads (absent on
non-OAuth infos). -/
structure OuterInfo where
  id : Option Int
  session_timeout : Int
  requested_by_user : Option (UserInfoP InnerInfo)
  granted_by_user : Option (UserInfoP InnerInfo)
  deriving DecidableEq, Repr

/-- Result shape of `getUserType`: the selected info, the type tag string
and the `isOAuth` flag. -/
structure ParsedUser (α : Type) where
  info : α
  type : String
  isOAuth : Bool
  deriving DecidableEq, Repr

/-- The message of the `Error` thrown by `getUserType` when no recognised
key is present (BunqJSClient.ts lines 578-580). -/
def noSupportedAccountTypeMsg : String :=
  "No supported account type found! (Not one of UserLight, UserPerson, UserApiKey or UserCompany)"

/-- Embeds `getUserType` (BunqJSClient.ts lines 551-581): checks the four
keys in source order `UserCompany`, `UserPerson`, `UserLight`,
`UserApiKey`; the first three classify as non-OAuth, `UserApiKey` as
OAuth; with none present it throws. -/
def getUserType {α : Type} (userInfo : UserInfoP α) : Except String (ParsedUser α) :=
  match userInfo.UserCompany with
  | some info => .ok { info := info, type := "UserCompany", isOAuth := false }
  | none =>
  match userInfo.UserPerson with
  | some info => .ok { info := info, type := "UserPerson", isOAuth := false }
  | none =>
  match userInfo.UserLight with
  | some info => .ok { info := info, type := "UserLight", isOAuth := false }
  | none =>
  match userInfo.UserApiKey with
  | some info => .ok { info := info, type := "UserApiKey", isOAuth := true }
  | none => .error noSupportedAccountTypeMsg

/-- JS falsiness of an optional numeric field: `!x` is true for
`undefined` and for the number `0`. -/
def jsFalsy : Option Int → Bool
  | none => true
  | some n => n == 0

/-- Accessing a property of JS `undefined` throws a `TypeError`; this is
what `getUserType(undefined)` does when `parseOauthUser` is handed an
info without the nested principal payloads. -/
def jsGet {β : Type} : Option β → Except String β
  | some x => .ok x
  | none => .error "TypeError: cannot read property of undefined"

/-- What the stored `Session.userInfo` object currently holds, as far as
the claims need it: `rawAssigned` records a wholesale
`this.Session.userInfo = response.user_info` assignment (non-OAuth branch
of `generateSession`), `userApiKeySlot` records the most recent
`this.Session.userInfo["UserApiKey"] = …` slot assignment made by
`parseOauthUser`. -/
structure UserInfoStore where
  rawAssigned : Option (UserInfoP OuterInfo)
  userApiKeySlot : Option InnerInfo
  deriving DecidableEq, Repr

/-- The fields of the `Session` object (`src/Session.ts`, consumed through
`this.Session`) that the claims touch.  `keypairGeneration` counts how
many fresh keypairs `setupKeypair(true)` has produced;
`sessionExpiryTimeChecker` is the armed timer, modelled as the scheduled
delay in ms (none = no pending timer); `storeCount` counts
`storeSession()` persistence calls. -/
structure SessionState where
  serverPublicKeyPem : Option String
  serverPublicKey : Option String
  installToken : Option String
  installUpdated : Option Int
  installCreated : Option Int
  keypairGeneration : Nat
  deviceId : Option Int
  sessionId : Option Int
  sessionToken : Option String
  sessionTokenId : Option Int
  sessionExpiryTime : Option Int
  sessionTimeout : Int
  isOAuthKey : Bool
  userInfo : UserInfoStore
  sessionExpiryTimeChecker : Option Int
  storeCount : Nat
  deriving DecidableEq, Repr

/-- The process environment consulted by `setExpiryTimer` (line 384):
whether `process` is defined at all, and the value of `process.env.ENV_CI`. -/
structure Env where
  processDefined : Bool
  ENV_CI : Option String
  deriving DecidableEq, Repr

/-- Client-level state of `BunqJSClient`: the `keepAlive` flag, the
`fetchingNewSession` marker (true while the promise field holds a pending
promise, false when the field holds `false`), the `Session`, the
environment, and the logger sinks (`logger.error` / `logger.debug`
messages, most recent first). -/
structure ClientState where
  keepAlive : Bool
  fetchingNewSession : Bool
  sess : SessionState
  env : Env
  errorLog : List String
  debugLog : List String
  deriving DecidableEq, Repr

/-- `this.Session.storeSession()`: persists the session; modelled as
bumping the persistence counter. -/
def storeSession (s : SessionState) : SessionState :=
  { s with storeCount := s.storeCount + 1 }

/-- Modelled from the spec: `Session.setupKeypair(force)` (`Session.ts` is
not under `src/`).  Spec section 4.1 `ensureKeyPair(force)`: with `force`
true a fresh keypair is generated and persisted; with `force` false an
existing keypair is reused. -/
def setupKeypair (forceNewKeypair : Bool) (s : SessionState) : SessionState :=
  if forceNewKeypair then { s with keypairGeneration := s.keypairGeneration + 1 } else s

/-- Modelled from the spec: `Session.verifyInstallation` (`Session.ts` is
not under `src/`).  Spec section 3: the Installation record (server public
key, install token) is null until `install()` succeeds. -/
def verifyInstallation (s : SessionState) : Bool :=
  s.serverPublicKey.isSome && s.installToken.isSome

/-- Modelled from the spec: `Session.verifyDeviceInstallation`
(`Session.ts` is not under `src/`).  Spec section 3: DeviceRegistration is
null until `registerDevice()` succeeds. -/
def verifyDeviceInstallation (s : SessionState) : Bool :=
  s.deviceId.isSome

/-- Modelled from the spec: `Session.verifySessionInstallation`
(`Session.ts` is not under `src/`).  Spec section 3: a Session is usable
only if Installation ∧ DeviceRegistration ∧ (Session.expiryTime > now)
all hold. -/
def verifySessionInstallation (s : SessionState) (now : Int) : Bool :=
  verifyInstallation s && verifyDeviceInstallation s && s.sessionId.isSome &&
    (match s.sessionExpiryTime with
     | some expiry => now < expiry
     | none => false)

/-- The constant `FIVE_MINUTES_MS` (line 13). -/
def FIVE_MINUTES_MS : Int := 300000

/-- `clearExpiryTimer` (lines 428-432): cancels the pending timer if one
is set. -/
def clearExpiryTimer (cl : ClientState) : ClientState :=
  { cl with sess := { cl.sess with sessionExpiryTimeChecker := none } }

/-- The CI guard of `setExpiryTimer` (line 384):
`typeof process !== "undefined" && process.env.ENV_CI === "true"`. -/
def isCIEnv (e : Env) : Bool :=
  e.processDefined && (e.ENV_CI == some "true")

/-- Embeds `setExpiryTimer` (lines 383-423).  `now` is the value of
`new Date()` at call time.  In the CI case the function returns
immediately (without touching an existing timer); with `keepAlive` false
it cancels the timer and returns; otherwise, when an expiry time is
known, it computes the remaining time (capped via the session timeout
when `shortTimeout` is set), subtracts the 15 s margin, cancels any
previous timer and arms the new one. -/
def setExpiryTimer (cl : ClientState) (now : Int) (shortTimeout : Bool) : ClientState :=
  if isCIEnv cl.env then cl
  else if cl.keepAlive = false then clearExpiryTimer cl
  else
    match cl.sess.sessionExpiryTime with
    | none => cl
    | some expiry =>
      let expiresInMilliseconds := expiry - now
      let expiresInMilliseconds :=
        if shortTimeout then
          if cl.sess.sessionTimeout > FIVE_MINUTES_MS then FIVE_MINUTES_MS
          else cl.sess.sessionTimeout
        else expiresInMilliseconds
      let timeoutRequestDuration := expiresInMilliseconds - 15000
      let cl := clearExpiryTimer cl
      { cl with sess := { cl.sess with sessionExpiryTimeChecker := some timeoutRequestDuration } }

/-- The transport response attached to a failed API call
(`error.response`); only the HTTP status is consulted by the core. -/
structure ErrResponse where
  status : Int
  deriving DecidableEq, Repr

/-- An error thrown by a collaborator API call: `response` is absent for a
pure network failure and present for a protocol rejection. -/
structure ApiError where
  response : Option ErrResponse
  deriving DecidableEq, Repr

/-- The catch handler of `registerDevice` (lines 157-180): with no
transport response the error is rethrown unchanged with no state
mutation; with a response of status exactly 400 the five Installation
fields are nulled, a fresh keypair is forced (`setupKeypair(true)`), the
wiped state is persisted, and the error is rethrown; any other status is
rethrown with no state mutation.  Returns the rethrown error together
with the state after the handler. -/
def registerDeviceCatch (cl : ClientState) (error : ApiError) : ApiError × ClientState :=
  match error.response with
  | none => (error, cl)
  | some response =>
    if response.status = 400 then
      let sess := { cl.sess with
        serverPublicKeyPem := none
        serverPublicKey := none
        installToken := none
        installUpdated := none
        installCreated := none }
      let sess := setupKeypair true sess
      let sess := storeSession sess
      (error, { cl with sess := sess })
    else (error, cl)

/-- Embeds `registerDevice` (lines 144-183).  `apiResult` is the awaited
outcome of `this.api.deviceRegistration.add(…)` (the new device id on
success).  Returns the JS return/throw outcome together with the final
state. -/
def registerDevice (cl : ClientState) (apiResult : Except ApiError Int) :
    Except ApiError Bool × ClientState :=
  if verifyDeviceInstallation cl.sess then (.ok true, cl)
  else
    match apiResult with
    | .ok deviceId =>
      let sess := storeSession { cl.sess with deviceId := some deviceId }
      (.ok true, { cl with sess := sess })
    | .error e =>
      let r := registerDeviceCatch cl e
      (.error r.1, r.2)

/-- Embeds `parseOauthUser` (lines 295-324) acting on a session state.
Classifies the nested requested-by and granted-by payloads (a missing
payload makes `getUserType(undefined)` throw a TypeError), takes the
session timeout from the requested-by principal, overwrites the
granted-by principal's `id` with the outer principal's `id` when the
granted-by `id` is JS-falsy (`!id`), and stores the granted-by info under
the `UserApiKey` slot of `Session.userInfo`.  The statement
`this.Session.isOAuthKey;` at line 318 is an expression without an
assignment and has no effect.  Returns the session timeout (seconds) and
the updated session. -/
def parseOauthUser (sess : SessionState) (userInfoParsed : ParsedUser OuterInfo) :
    Except String (Int × SessionState) :=
  match jsGet userInfoParsed.info.requested_by_user with
  | .error msg => .error msg
  | .ok rbPayload =>
  match jsGet userInfoParsed.info.granted_by_user with
  | .error msg => .error msg
  | .ok gbPayload =>
  match getUserType rbPayload with
  | .error msg => .error msg
  | .ok requestedByUserParsed =>
  match getUserType gbPayload with
  | .error msg => .error msg
  | .ok grantedByUserParsed =>
    let sessionTimeout := requestedByUserParsed.info.session_timeout
    let grantedInfo :=
      if jsFalsy grantedByUserParsed.info.id then
        { grantedByUserParsed.info with id := userInfoParsed.info.id }
      else grantedByUserParsed.info
    .ok (sessionTimeout,
      { sess with userInfo := { sess.userInfo with userApiKeySlot := some grantedInfo } })

/-- The `token` object of a session-server response: the session token,
its id, and the parsed `created` timestamp (`new Date(created + " UTC")`)
in ms since epoch. -/
structure TokenInfo where
  token : String
  id : Int
  created : Int
  deriving DecidableEq, Repr

/-- A successful `this.api.sessionServer.add()` response as consumed by
`generateSession`: the session id, the token object and the principal
payload. -/
structure SessionServerResponse where
  id : Int
  token : TokenInfo
  user_info : UserInfoP OuterInfo
  deriving DecidableEq, Repr

/-- Modelled from the spec: the error-code table `Helpers/ErrorCodes`
(not under `src/`).  Spec section 6 lists the named code
"installation already has a session", referenced by the source as
`this.errorCodes.INSTALLATION_HAS_SESSION` (line 229). -/
def errorCodesINSTALLATION_HAS_SESSION : String := "INSTALLATION_HAS_SESSION"

/-- An exception propagating out of `generateSession`: either the wrapper
object `\x7b errorCode, error \x7d` thrown at lines 228-231 for a failed
session-server call, or a plain JS error (from `getUserType` /
`parseOauthUser`). -/
inductive GenError where
  | wrapped (errorCode : String) (cause : ApiError)
  | jsError (msg : String)
  deriving DecidableEq, Repr

/-- Embeds `generateSession` (lines 215-288).  `apiResult` is the awaited
outcome of `this.api.sessionServer.add()`; `now` is the clock value used
by the `setExpiryTimer()` call at line 285.  On a failed call the wrapper
carrying `errorCodes.INSTALLATION_HAS_SESSION` and the original error is
thrown; otherwise the principal payload is classified, the session
timeout (seconds) is taken either from the principal's own info
(non-OAuth, which also sets `isOAuthKey := false` and assigns the whole
payload to `userInfo`) or from `parseOauthUser`; the timeout is scaled to
ms, the expiry is `created + timeout_ms`, the session fields are set,
the session is persisted and the expiry timer re-armed. -/
def generateSession (cl : ClientState) (apiResult : Except ApiError SessionServerResponse)
    (now : Int) : Except GenError ClientState :=
  match apiResult with
  | .error error => .error (.wrapped errorCodesINSTALLATION_HAS_SESSION error)
  | .ok response =>
    match getUserType response.user_info with
    | .error msg => .error (.jsError msg)
    | .ok userInfoParsed =>
      let branch : Except String (Int × ClientState) :=
        if userInfoParsed.isOAuth = false then
          .ok (userInfoParsed.info.session_timeout,
            { cl with sess := { cl.sess with
                isOAuthKey := false
                userInfo := { rawAssigned := some response.user_info,
                              userApiKeySlot := none } } })
        else
          match parseOauthUser cl.sess userInfoParsed with
          | .error msg => .error msg
          | .ok ts => .ok (ts.1, { cl with sess := ts.2 })
      match branch with
      | .error msg => .error (.jsError msg)
      | .ok r =>
        let sessionTimeout := r.1 * 1000
        let cl1 := r.2
        let expiry := response.token.created + sessionTimeout
        let sess := { cl1.sess with
          sessionExpiryTime := some expiry
          sessionTimeout := sessionTimeout
          sessionId := some response.id
          sessionToken := some response.token.token
          sessionTokenId := some response.token.id }
        let sess := storeSession sess
        .ok (setExpiryTimer { cl1 with sess := sess } now false)

/-- Embeds `registerSession` (lines 189-209).  When the session is not
valid, the field `fetchingNewSession` is assigned the fresh
`generateSession()` promise (modelled as the marker becoming true) and
awaited; the catch clears the marker and rethrows; the success path
clears the marker and returns true. -/
def registerSession (cl : ClientState) (apiResult : Except ApiError SessionServerResponse)
    (now : Int) : Except GenError Bool × ClientState :=
  if verifySessionInstallation cl.sess now then (.ok true, cl)
  else
    let cl1 := { cl with fetchingNewSession := true }
    match generateSession cl1 apiResult now with
    | .error e => (.error e, { cl1 with fetchingNewSession := false })
    | .ok cl2 => (.ok true, { cl2 with fetchingNewSession := false })

/-- Embeds `expiryTimerCallback` (lines 437-457).  With `keepAlive` false
the timer is cancelled and nothing else happens.  Otherwise the
background `getUsers(true)` refresh is fired without awaiting it, the
timer is re-armed synchronously with `shortTimeout = true`, and when the
refresh settles its failure is only logged via `logger.error` (success
logs a debug line).  `refreshResult` is the eventual outcome of the
refresh. -/
def expiryTimerCallback (cl : ClientState) (refreshResult : Except String Unit)
    (now : Int) : ClientState :=
  if cl.keepAlive = false then clearExpiryTimer cl
  else
    let cl1 := setExpiryTimer cl now true
    match refreshResult with
    | .ok _ => { cl1 with debugLog := "Triggered session refresh" :: cl1.debugLog }
    | .error e => { cl1 with errorLog := e :: cl1.errorLog }

/-- Modelled from the spec: `Session.destroySession` (`Session.ts` is not
under `src/`).  Spec section 3 lifecycle: the Session is destroyed
(cleared) on explicit logout; the stored record is persisted. -/
def sessionDestroy (s : SessionState) : SessionState :=
  storeSession { s with
    sessionId := none
    sessionToken := none
    sessionTokenId := none
    sessionExpiryTime := none
    sessionTimeout := 0
    userInfo := { rawAssigned := none, userApiKeySlot := none } }

/-- Embeds `destroySession` (lines 463-480).  When the installation,
device and session are all valid the remote `sessionServer.delete()` is
attempted, and its outcome — `deleteResult` — is discarded by the empty
`catch (ex) \x7b\x7d` block at line 472: nothing is logged and nothing is
rethrown, whatever the outcome.  The function then cancels the expiry
timer and destroys the stored session. -/
def destroySession (cl : ClientState) (deleteResult : Except ApiError Unit)
    (now : Int) : ClientState :=
  let clAfterTry :=
    if verifyInstallation cl.sess && verifyDeviceInstallation cl.sess &&
        verifySessionInstallation cl.sess now then
      match deleteResult with
      | .ok _ => cl
      | .error _ => cl
    else cl
  let cl1 := clearExpiryTimer clAfterTry
  { cl1 with sess := sessionDestroy cl1.sess }

/-!
## Interleaving model for concurrent `registerSession` callers

`registerSession` is an `async` method: its body runs synchronously up to
the first `await`.  The synchronous prefix (lines 190-196) performs the
session-validity check and, on the invalid path, calls
`this.generateSession()` — whose own synchronous prefix issues the
session-creation network request at line 220 — and assigns the resulting
promise to `this.fetchingNewSession` before the caller suspends at
`await`.  Under the single-threaded event loop, N concurrent callers of
`registerSession` execute their synchronous prefixes one after another.
-/

/-- Shared state seen by concurrent `registerSession` callers:
whether `verifySessionInstallation()` currently returns true, which
caller's promise the `fetchingNewSession` field currently holds (none =
`false`), and how many session-creation network requests have been
issued. -/
structure ConcState where
  sessionValid : Bool
  fetchingNewSession : Option Nat
  networkCalls : Nat
  deriving DecidableEq, Repr

/-- The synchronous prefix of `registerSession` (lines 190-196) run by
caller `callerId`: if the session is valid nothing happens; otherwise a
fresh `generateSession()` is started — issuing one session-creation
network request — and its promise overwrites `fetchingNewSession`.  The
field is never read before being overwritten: the source contains no
check of `this.fetchingNewSession` on this path. -/
def registerSessionSyncPrefix (callerId : Nat) (s : ConcState) : ConcState :=
  if s.sessionValid then s
  else { s with fetchingNewSession := some callerId, networkCalls := s.networkCalls + 1 }

/-!
## Concrete fixtures

Concrete states and payloads used to instantiate the theorems and to
exhibit counterexamples.
-/

/-- A payload whose only recognised key is `UserCompany`. -/
def payloadCompany {α : Type} (info : α) : UserInfoP α :=
  { UserCompany := some info, UserPerson := none, UserLight := none, UserApiKey := none }

/-- A payload whose only recognised key is `UserPerson`. -/
def payloadPerson {α : Type} (info : α) : UserInfoP α :=
  { UserCompany := none, UserPerson := some info, UserLight := none, UserApiKey := none }

/-- A payload whose only recognised key is `UserLight`. -/
def payloadLight {α : Type} (info : α) : UserInfoP α :=
  { UserCompany := none, UserPerson := none, UserLight := some info, UserApiKey := none }

/-- A payload whose only recognised key is `UserApiKey`. -/
def payloadApiKey {α : Type} (info : α) : UserInfoP α :=
  { UserCompany := none, UserPerson := none, UserLight := none, UserApiKey := some info }

/-- A payload with none of the four recognised keys. -/
def payloadEmpty {α : Type} : UserInfoP α :=
  { UserCompany := none, UserPerson := none, UserLight := none, UserApiKey := none }

/-- A fully installed session with a device and a (still valid at time
0 … 999999) session. -/
def sampleSession : SessionState where
  serverPublicKeyPem := some "pem"
  serverPublicKey := some "spk"
  installToken := some "itok"
  installUpdated := some 100
  installCreated := some 90
  keypairGeneration := 1
  deviceId := some 42
  sessionId := some 7
  sessionToken := some "stok"
  sessionTokenId := some 8
  sessionExpiryTime := some 1000000
  sessionTimeout := 604800000
  isOAuthKey := false
  userInfo := { rawAssigned := none, userApiKeySlot := none }
  sessionExpiryTimeChecker := some 5000
  storeCount := 0

/-- A non-CI environment (`process` defined, `ENV_CI` unset). -/
def sampleEnv : Env where
  processDefined := true
  ENV_CI := none

/-- The designated CI environment (`process.env.ENV_CI === "true"`). -/
def ciEnv : Env where
  processDefined := true
  ENV_CI := some "true"

/-- A client over `sampleSession` with `keepAlive` on, outside CI. -/
def sampleClient : ClientState where
  keepAlive := true
  fetchingNewSession := false
  sess := sampleSession
  env := sampleEnv
  errorLog := []
  debugLog := []

/-- A client that is installed and device-registered but has no session
yet (so `verifySessionInstallation` is false). -/
def freshClient : ClientState :=
  { sampleClient with sess := { sampleSession with
      sessionId := none, sessionExpiryTime := none, sessionExpiryTimeChecker := none } }

/-- A client whose device is not registered yet. -/
def noDeviceClient : ClientState :=
  { sampleClient with sess := { sampleSession with deviceId := none } }

/-- `sampleClient` placed in the CI environment, with a timer armed. -/
def ciClient : ClientState :=
  { sampleClient with env := ciEnv }

/-- `sampleClient` with self-renewal disabled. -/
def keepAliveOffClient : ClientState :=
  { sampleClient with keepAlive := false }

/-- `sampleClient` whose `isOAuthKey` flag is currently true. -/
def oauthPriorClient : ClientState :=
  { sampleClient with sess := { sampleSession with isOAuthKey := true } }

/-- An API error with no transport response (pure network failure). -/
def errNoResponse : ApiError := { response := none }

/-- An API error carrying a 400 response. -/
def err400 : ApiError := { response := some { status := 400 } }

/-- An API error carrying a 403 response (client-error class, not 400). -/
def err403 : ApiError := { response := some { status := 403 } }

/-- An API error carrying a 500 response. -/
def err500 : ApiError := { response := some { status := 500 } }

/-- The granted-by principal info of the OAuth fixture: it carries an
identifier, namely `0`, which is JS-falsy. -/
def oauthGrantedInner : InnerInfo := { id := some 0, session_timeout := 300 }

/-- The requested-by principal info of the OAuth fixture. -/
def oauthRequestedInner : InnerInfo := { id := some 1, session_timeout := 600 }

/-- The outer info of an OAuth (`UserApiKey`) principal payload. -/
def oauthOuterInfo : OuterInfo where
  id := some 77
  session_timeout := 0
  requested_by_user := some (payloadPerson oauthRequestedInner)
  granted_by_user := some (payloadPerson oauthGrantedInner)

/-- The OAuth outer payload classified, as `getUserType` returns it. -/
def oauthParsedUser : ParsedUser OuterInfo :=
  { info := oauthOuterInfo, type := "UserApiKey", isOAuth := true }

/-- A session-server response whose principal payload is OAuth-shaped. -/
def oauthResponse : SessionServerResponse where
  id := 11
  token := { token := "tok2", id := 12, created := 500000 }
  user_info := payloadApiKey oauthOuterInfo

/-- The outer info of a non-OAuth (`UserPerson`) principal payload, with a
one-week session timeout in seconds. -/
def personOuterInfo : OuterInfo where
  id := some 5
  session_timeout := 604800
  requested_by_user := none
  granted_by_user := none

/-- A session-server response whose principal payload is `UserPerson`-shaped. -/
def personResponse : SessionServerResponse where
  id := 21
  token := { token := "tok3", id := 22, created := 500000 }
  user_info := payloadPerson personOuterInfo

/-- The client state `generateSession` produces from `oauthPriorClient`
on `oauthResponse` at time 0. -/
def oauthGenExpected : ClientState :=
  ((generateSession oauthPriorClient (.ok oauthResponse) 0).toOption).getD oauthPriorClient

/-- The client state `generateSession` produces from `sampleClient` on
`personResponse` at time 0. -/
def personGenExpected : ClientState :=
  ((generateSession sampleClient (.ok personResponse) 0).toOption).getD sampleClient

/-!
## Theorems
-/

/-- C7: `getUserType` classifies every principal payload into exactly one
of the four variants by structural presence of the corresponding field,
in the source's precedence order: a present `UserCompany`, `UserPerson`
or `UserLight` field (each checked only when the earlier ones are
absent) classifies successfully as non-OAuth with the matching type tag,
a present `UserApiKey` field classifies successfully as OAuth, a payload
containing none of the four fields makes `getUserType` throw the
unsupported-type error (committing no state, the function being pure),
and conversely every successful classification is one of the four
variants with its corresponding field present. -/
theorem getUserType_classification {α : Type} (u : UserInfoP α) :
    (∀ info, u.UserCompany = some info →
      getUserType u = .ok { info := info, type := "UserCompany", isOAuth := false }) ∧
    (u.UserCompany = none → ∀ info, u.UserPerson = some info →
      getUserType u = .ok { info := info, type := "UserPerson", isOAuth := false }) ∧
    (u.UserCompany = none → u.UserPerson = none → ∀ info, u.UserLight = some info →
      getUserType u = .ok { info := info, type := "UserLight", isOAuth := false }) ∧
    (u.UserCompany = none → u.UserPerson = none → u.UserLight = none →
      ∀ info, u.UserApiKey = some info →
      getUserType u = .ok { info := info, type := "UserApiKey", isOAuth := true }) ∧
    (u.UserCompany = none → u.UserPerson = none → u.UserLight = none →
      u.UserApiKey = none → getUserType u = .error noSupportedAccountTypeMsg) ∧
    (∀ p : ParsedUser α, getUserType u = .ok p →
      ((p.type = "UserCompany" ∧ p.isOAuth = false ∧ u.UserCompany = some p.info) ∨
       (p.type = "UserPerson" ∧ p.isOAuth = false ∧ u.UserPerson = some p.info) ∨
       (p.type = "UserLight" ∧ p.isOAuth = false ∧ u.UserLight = some p.info) ∨
       (p.type = "UserApiKey" ∧ p.isOAuth = true ∧ u.UserApiKey = some p.info))) := by
  obtain ⟨c, pn, l, k⟩ := u
  refine ⟨?_, ?_, ?_, ?_, ?_, ?_⟩
  · intro info h
    simp only at h
    subst h
    rfl
  · intro hc info h
    simp only at hc h
    subst hc; subst h
    rfl
  · intro hc hp info h
    simp only at hc hp h
    subst hc; subst hp; subst h
    rfl
  · intro hc hp hl info h
    simp only at hc hp hl h
    subst hc; subst hp; subst hl; subst h
    rfl
  · intro h1 h2 h3 h4
    simp only at h1 h2 h3 h4
    subst h1; subst h2; subst h3; subst h4
    rfl
  · intro p hp
    cases c <;> cases pn <;> cases l <;> cases k <;>
      simp_all [getUserType] <;> simp [← hp]

/-- Witness for C7: each of the four single-field payload shapes
classifies successfully with the matching tag and OAuth flag, and the
all-absent payload is rejected with the unsupported-type error. -/
theorem getUserType_classification_witness :
    getUserType (payloadCompany oauthRequestedInner) =
      .ok { info := oauthRequestedInner, type := "UserCompany", isOAuth := false } ∧
    getUserType (payloadPerson oauthRequestedInner) =
      .ok { info := oauthRequestedInner, type := "UserPerson", isOAuth := false } ∧
    getUserType (payloadLight oauthRequestedInner) =
      .ok { info := oauthRequestedInner, type := "UserLight", isOAuth := false } ∧
    getUserType (payloadApiKey oauthRequestedInner) =
      .ok { info := oauthRequestedInner, type := "UserApiKey", isOAuth := true } ∧
    getUserType (payloadEmpty : UserInfoP InnerInfo) = .error noSupportedAccountTypeMsg :=
  ⟨(getUserType_classification (payloadCompany oauthRequestedInner)).1 _ rfl,
   (getUserType_classification (payloadPerson oauthRequestedInner)).2.1 rfl _ rfl,
   (getUserType_classification (payloadLight oauthRequestedInner)).2.2.1 rfl rfl _ rfl,
   (getUserType_classification (payloadApiKey oauthRequestedInner)).2.2.2.1 rfl rfl rfl _ rfl,
   (getUserType_classification (payloadEmpty : UserInfoP InnerInfo)).2.2.2.2.1 rfl rfl rfl rfl⟩

/-- C8 (amended): for every OAuth-classified principal whose nested
payloads classify successfully, `parseOauthUser` takes the session
timeout from the classified requested-by principal, overwrites the
granted-by principal's identifier with the outer principal's identifier
exactly when the granted-by identifier is JS-falsy (absent or `0`), and
stores the granted-by info under the `UserApiKey` slot of the session's
principal map, touching nothing else in the session. -/
theorem parseOauthUser_spec (sess : SessionState) (up : ParsedUser OuterInfo)
    (rb gb : UserInfoP InnerInfo) (rp gp : ParsedUser InnerInfo)
    (hrb : up.info.requested_by_user = some rb)
    (hgb : up.info.granted_by_user = some gb)
    (hrp : getUserType rb = .ok rp)
    (hgp : getUserType gb = .ok gp) :
    parseOauthUser sess up =
      .ok (rp.info.session_timeout,
        { sess with userInfo := { sess.userInfo with
            userApiKeySlot := some (if jsFalsy gp.info.id then
              { gp.info with id := up.info.id } else gp.info) } }) := by
  unfold parseOauthUser
  rw [hrb, hgb]
  simp [jsGet, hrp, hgp]

/-- Witness for C8: on the concrete OAuth fixture the timeout comes from
the requested-by principal (600 s) and the granted-by info lands in the
`UserApiKey` slot with the outer identifier substituted for its falsy
own identifier. -/
theorem parseOauthUser_spec_witness :
    parseOauthUser sampleSession oauthParsedUser =
      .ok (600, { sampleSession with userInfo :=
        { rawAssigned := none,
          userApiKeySlot := some { id := some 77, session_timeout := 300 } } }) := by
  have h := parseOauthUser_spec sampleSession oauthParsedUser
    (payloadPerson oauthRequestedInner) (payloadPerson oauthGrantedInner)
    { info := oauthRequestedInner, type := "UserPerson", isOAuth := false }
    { info := oauthGrantedInner, type := "UserPerson", isOAuth := false }
    rfl rfl rfl rfl
  simpa [sampleSession, oauthParsedUser, oauthOuterInfo, oauthRequestedInner,
    oauthGrantedInner, jsFalsy] using h

/-- Counterexample for C8 as stated: the granted-by principal of the
fixture carries an identifier (the number `0`), yet `parseOauthUser`
still replaces it with the outer principal's identifier `77` — the
synthesis happens on JS-falsiness of the identifier, not exactly on its
absence. -/
theorem parseOauthUser_zero_id_cex :
    oauthGrantedInner.id = some 0 ∧
    oauthGrantedInner.id ≠ none ∧
    parseOauthUser sampleSession oauthParsedUser =
      .ok (600, { sampleSession with userInfo :=
        { rawAssigned := none,
          userApiKeySlot := some { id := some 77, session_timeout := 300 } } }) ∧
    (some 77 : Option Int) ≠ oauthGrantedInner.id := by
  refine ⟨rfl, by decide, ?_, by decide⟩
  decide

/-- Helper: `setExpiryTimer` only ever touches the timer field of the
session and never the logs. -/
theorem setExpiryTimer_frame (cl : ClientState) (now : Int) (b : Bool) :
    (setExpiryTimer cl now b).sess.isOAuthKey = cl.sess.isOAuthKey ∧
    (setExpiryTimer cl now b).sess.sessionExpiryTime = cl.sess.sessionExpiryTime ∧
    (setExpiryTimer cl now b).sess.sessionTimeout = cl.sess.sessionTimeout ∧
    (setExpiryTimer cl now b).errorLog = cl.errorLog := by
  unfold setExpiryTimer clearExpiryTimer
  split
  · exact ⟨rfl, rfl, rfl, rfl⟩
  · split
    · exact ⟨rfl, rfl, rfl, rfl⟩
    · split <;> exact ⟨rfl, rfl, rfl, rfl⟩

/-- Helper: on success `parseOauthUser` leaves every session field except
`userInfo` unchanged; in particular `isOAuthKey` keeps its prior value. -/
theorem parseOauthUser_ok_frame (sess : SessionState) (up : ParsedUser OuterInfo)
    (t : Int) (s' : SessionState) (h : parseOauthUser sess up = .ok (t, s')) :
    s'.isOAuthKey = sess.isOAuthKey := by
  unfold parseOauthUser at h
  repeat' split at h
  all_goals simp_all
  all_goals rw [← h.2]

/-- C10: on a successful `generateSession` run whose principal payload
classifies as OAuth (`UserApiKey`-shaped), the session's `isOAuthKey`
flag keeps its prior value — the statement `this.Session.isOAuthKey;` at
line 318 assigns nothing — while the non-OAuth branch is the only one
that assigns the flag, setting it to `false`. -/
theorem generateSession_isOAuthKey_assignment
    (cl : ClientState) (r : SessionServerResponse) (now : Int)
    (p : ParsedUser OuterInfo) (cl' : ClientState)
    (hg : getUserType r.user_info = .ok p)
    (hok : generateSession cl (.ok r) now = .ok cl') :
    (p.isOAuth = true → cl'.sess.isOAuthKey = cl.sess.isOAuthKey) ∧
    (p.isOAuth = false → cl'.sess.isOAuthKey = false) := by
  constructor
  · intro hoa
    simp only [generateSession, hg, hoa] at hok
    cases hpo : parseOauthUser cl.sess p with
    | error msg => rw [hpo] at hok; simp at hok
    | ok ts =>
      rw [hpo] at hok
      simp at hok
      rw [← hok, (setExpiryTimer_frame _ now false).1]
      simpa [storeSession] using parseOauthUser_ok_frame cl.sess p ts.1 ts.2 (by rw [hpo])
  · intro hoa
    simp only [generateSession, hg, hoa] at hok
    simp at hok
    rw [← hok, (setExpiryTimer_frame _ now false).1]
    simp [storeSession]

/-- Witness for C10: on the OAuth fixture (prior flag `true`) the flag
stays `true`; on the non-OAuth fixture it is assigned `false`. -/
theorem generateSession_isOAuthKey_assignment_witness :
    oauthGenExpected.sess.isOAuthKey = oauthPriorClient.sess.isOAuthKey ∧
    personGenExpected.sess.isOAuthKey = false := by
  constructor
  · exact (generateSession_isOAuthKey_assignment oauthPriorClient oauthResponse 0
      oauthParsedUser oauthGenExpected rfl (by decide)).1 rfl
  · exact (generateSession_isOAuthKey_assignment sampleClient personResponse 0
      { info := personOuterInfo, type := "UserPerson", isOAuth := false }
      personGenExpected rfl (by decide)).2 rfl

/-- C4: a successful session creation with created timestamp `T0` and
extracted session timeout `S` seconds stores
`sessionExpiryTime = T0 + S*1000` ms and `sessionTimeout = S*1000` ms,
and the `setExpiryTimer()` call at the end of `generateSession` (and any
call without `shortTimeout` while a session expiry is known) arms the
timer with a delay of `(expiry - now) - 15000` ms — 15 seconds before
the computed expiry. -/
theorem generateSession_expiry_arithmetic
    (cl : ClientState) (r : SessionServerResponse) (now : Int)
    (p : ParsedUser OuterInfo) (cl' : ClientState)
    (hg : getUserType r.user_info = .ok p) (hno : p.isOAuth = false)
    (hCI : isCIEnv cl.env = false) (hka : cl.keepAlive = true)
    (hok : generateSession cl (.ok r) now = .ok cl') :
    cl'.sess.sessionExpiryTime = some (r.token.created + p.info.session_timeout * 1000) ∧
    cl'.sess.sessionTimeout = p.info.session_timeout * 1000 ∧
    cl'.sess.sessionExpiryTimeChecker =
      some (r.token.created + p.info.session_timeout * 1000 - now - 15000) ∧
    (∀ (cl2 : ClientState) (t expiry : Int), isCIEnv cl2.env = false →
      cl2.keepAlive = true → cl2.sess.sessionExpiryTime = some expiry →
      (setExpiryTimer cl2 t false).sess.sessionExpiryTimeChecker =
        some (expiry - t - 15000)) := by
  have harm : ∀ (cl2 : ClientState) (t expiry : Int), isCIEnv cl2.env = false →
      cl2.keepAlive = true → cl2.sess.sessionExpiryTime = some expiry →
      (setExpiryTimer cl2 t false).sess.sessionExpiryTimeChecker =
        some (expiry - t - 15000) := by
    intro cl2 t expiry h1 h2 h3
    simp [setExpiryTimer, clearExpiryTimer, h1, h2, h3]
  simp only [generateSession, hg, hno] at hok
  simp at hok
  refine ⟨?_, ?_, ?_, harm⟩ <;> rw [← hok]
  · rw [(setExpiryTimer_frame _ now false).2.1]; simp [storeSession]
  · rw [(setExpiryTimer_frame _ now false).2.2.1]; simp [storeSession]
  · exact harm _ now _ hCI hka (by simp [storeSession])

/-- Witness for C4: on the `UserPerson` fixture (`T0 = 500000`,
`S = 604800`) the stored expiry is `T0 + S*1000`, the stored timeout is
`S*1000`, and the timer delay is `expiry - 15000` from arm time 0. -/
theorem generateSession_expiry_arithmetic_witness :
    personGenExpected.sess.sessionExpiryTime =
      some (personResponse.token.created + personOuterInfo.session_timeout * 1000) ∧
    personGenExpected.sess.sessionTimeout = personOuterInfo.session_timeout * 1000 ∧
    personGenExpected.sess.sessionExpiryTimeChecker =
      some (personResponse.token.created + personOuterInfo.session_timeout * 1000 - 0 - 15000) := by
  have h := generateSession_expiry_arithmetic sampleClient personResponse 0
    { info := personOuterInfo, type := "UserPerson", isOAuth := false }
    personGenExpected rfl rfl rfl rfl (by decide)
  exact ⟨h.1, h.2.1, h.2.2.1⟩

/-- C5: a `setExpiryTimer` call with `shortTimeout` set, a known session
expiry, self-renewal enabled and outside CI schedules a delay of
`min(sessionTimeoutMs, 300000) - 15000` ms, independently of the current
time — never the full remaining time to expiry. -/
theorem setExpiryTimer_shortTimeout_cap (cl : ClientState) (now expiry : Int)
    (hCI : isCIEnv cl.env = false) (hka : cl.keepAlive = true)
    (hex : cl.sess.sessionExpiryTime = some expiry) :
    (setExpiryTimer cl now true).sess.sessionExpiryTimeChecker =
      some (min cl.sess.sessionTimeout FIVE_MINUTES_MS - 15000) ∧
    (∀ other : Int, setExpiryTimer cl now true = setExpiryTimer cl other true) := by
  constructor
  · simp only [setExpiryTimer, clearExpiryTimer, FIVE_MINUTES_MS, hCI, hka, hex,
      Bool.false_eq_true, reduceIte]
    split
    · simp_all
    · rcases le_or_lt cl.sess.sessionTimeout (300000 : Int) with hle | hlt
      · rw [if_neg (by omega), min_eq_left hle]
      · rw [if_pos (by omega), min_eq_right hlt.le]
  · intro other
    simp [setExpiryTimer, clearExpiryTimer, hCI, hka, hex]

/-- Witness for C5: on `sampleClient` (session timeout one week, far
above the five-minute cap) the short-timeout delay is
`300000 - 15000 = 285000` ms. -/
theorem setExpiryTimer_shortTimeout_cap_witness :
    (setExpiryTimer sampleClient 0 true).sess.sessionExpiryTimeChecker =
      some (min sampleClient.sess.sessionTimeout FIVE_MINUTES_MS - 15000) :=
  (setExpiryTimer_shortTimeout_cap sampleClient 0 1000000 rfl rfl rfl).1

/-- C6 (amended): a `setExpiryTimer` call with self-renewal disabled
(`keepAlive` false, outside CI) schedules nothing and cancels any
previously armed timer; a call in the designated CI environment schedules
nothing but returns before the cancellation, leaving an already armed
timer untouched. -/
theorem setExpiryTimer_disabled_behaviour (cl : ClientState) (now : Int) (b : Bool) :
    (isCIEnv cl.env = true -> setExpiryTimer cl now b = cl) /\
    (isCIEnv cl.env = false -> cl.keepAlive = false ->
      setExpiryTimer cl now b = clearExpiryTimer cl /\
      (setExpiryTimer cl now b).sess.sessionExpiryTimeChecker = none) := by
  constructor
  . intro hci
    simp [setExpiryTimer, hci]
  . intro hci hka
    simp [setExpiryTimer, clearExpiryTimer, hci, hka]

/-- Witness for C6: with `keepAlive` off (outside CI) the armed timer of
the fixture is cancelled and nothing is scheduled. -/
theorem setExpiryTimer_disabled_behaviour_witness :
    (setExpiryTimer keepAliveOffClient 0 false = clearExpiryTimer keepAliveOffClient /\
      (setExpiryTimer keepAliveOffClient 0 false).sess.sessionExpiryTimeChecker = none) /\
    setExpiryTimer ciClient 0 false = ciClient :=
  ⟨(setExpiryTimer_disabled_behaviour keepAliveOffClient 0 false).2 rfl rfl,
   (setExpiryTimer_disabled_behaviour ciClient 0 false).1 rfl⟩

/-- Counterexample for C6 as stated: in the CI environment the previously
armed timer (delay 5000) is NOT cancelled — the CI early return at lines
384-387 precedes the `clearExpiryTimer` call, so the timer stays armed. -/
theorem setExpiryTimer_ci_no_cancel_cex :
    isCIEnv ciClient.env = true /\
    ciClient.sess.sessionExpiryTimeChecker = some 5000 /\
    (setExpiryTimer ciClient 0 false).sess.sessionExpiryTimeChecker = some 5000 /\
    (setExpiryTimer ciClient 0 true).sess.sessionExpiryTimeChecker = some 5000 := by
  decide

/-- C2 (amended): when `registerDevice`'s registration call fails with no
transport response, the original error is rethrown unchanged and no state
is mutated; when it fails with a response of status exactly 400 (the
bad-request/duplicate-key case), the server public key (raw and parsed),
install token and install created/updated timestamps are all nulled, a
fresh keypair is forced via `setupKeypair(true)`, the wiped state is
persisted, and the original error is rethrown; any other response status
(including other 4xx statuses) is rethrown unchanged with no state
mutation. -/
theorem registerDevice_failure_handling (cl : ClientState) (error : ApiError) :
    (error.response = none -> registerDeviceCatch cl error = (error, cl)) /\
    (forall resp, error.response = some resp -> resp.status = 400 ->
      (registerDeviceCatch cl error).1 = error /\
      (registerDeviceCatch cl error).2.sess.serverPublicKeyPem = none /\
      (registerDeviceCatch cl error).2.sess.serverPublicKey = none /\
      (registerDeviceCatch cl error).2.sess.installToken = none /\
      (registerDeviceCatch cl error).2.sess.installUpdated = none /\
      (registerDeviceCatch cl error).2.sess.installCreated = none /\
      (registerDeviceCatch cl error).2.sess.keypairGeneration =
        cl.sess.keypairGeneration + 1 /\
      (registerDeviceCatch cl error).2.sess.storeCount = cl.sess.storeCount + 1) /\
    (forall resp, error.response = some resp -> resp.status ≠ 400 ->
      registerDeviceCatch cl error = (error, cl)) /\
    (verifyDeviceInstallation cl.sess = false ->
      (registerDevice cl (.error error)).1 = .error error /\
      (registerDevice cl (.error error)).2 = (registerDeviceCatch cl error).2) := by
  refine ⟨?_, ?_, ?_, ?_⟩
  . intro h
    simp [registerDeviceCatch, h]
  . intro resp h h400
    simp [registerDeviceCatch, h, h400, setupKeypair, storeSession]
  . intro resp h hne
    simp [registerDeviceCatch, h, hne]
  . intro hdev
    have h1 : (registerDeviceCatch cl error).1 = error := by
      unfold registerDeviceCatch
      repeat' split
      all_goals rfl
    simp [registerDevice, hdev, h1]

/-- Witness for C2: a 400 rejection on the fixture wipes the five
Installation fields, bumps the keypair generation, persists, and rethrows
the original error; a response-less failure is rethrown unchanged. -/
theorem registerDevice_failure_handling_witness :
    ((registerDeviceCatch noDeviceClient err400).1 = err400 /\
      (registerDeviceCatch noDeviceClient err400).2.sess.serverPublicKeyPem = none /\
      (registerDeviceCatch noDeviceClient err400).2.sess.serverPublicKey = none /\
      (registerDeviceCatch noDeviceClient err400).2.sess.installToken = none /\
      (registerDeviceCatch noDeviceClient err400).2.sess.installUpdated = none /\
      (registerDeviceCatch noDeviceClient err400).2.sess.installCreated = none /\
      (registerDeviceCatch noDeviceClient err400).2.sess.keypairGeneration =
        noDeviceClient.sess.keypairGeneration + 1 /\
      (registerDeviceCatch noDeviceClient err400).2.sess.storeCount =
        noDeviceClient.sess.storeCount + 1) /\
    registerDeviceCatch noDeviceClient errNoResponse = (errNoResponse, noDeviceClient) :=
  ⟨(registerDevice_failure_handling noDeviceClient err400).2.1 { status := 400 } rfl rfl,
   (registerDevice_failure_handling noDeviceClient errNoResponse).1 rfl⟩

/-- Counterexample for C2 as stated: a 403 response is in the client-error
status class 4xx, yet `registerDeviceCatch` rethrows it with NO state
mutation — the install token survives and no fresh keypair is forced,
because the source tests `response.status === 400` exactly. -/
theorem registerDevice_403_not_wiped_cex :
    ((400 : Int) ≤ 403 /\ (403 : Int) < 500) /\
    err403.response = some { status := 403 } /\
    registerDeviceCatch sampleClient err403 = (err403, sampleClient) /\
    sampleClient.sess.installToken = some "itok" /\
    sampleClient.sess.keypairGeneration = 1 := by
  decide

/-- C3 (amended): a failure of the session-creation call inside
`generateSession` propagates as the wrapper object carrying the client's
`INSTALLATION_HAS_SESSION` error code together with the original error as
cause; no retry happens (the single attempt's outcome is propagated
as-is), no session state is committed (`registerSession` returns the
prior state except for the single-flight marker), and the
`fetchingNewSession` marker is cleared before the failure — and likewise
before any success — reaches the caller of `registerSession`. -/
theorem generateSession_failure_wrapping (cl : ClientState) (e : ApiError) (now : Int)
    (hv : verifySessionInstallation cl.sess now = false) :
    registerSession cl (.error e) now =
      (.error (.wrapped errorCodesINSTALLATION_HAS_SESSION e),
       { cl with fetchingNewSession := false }) /\
    (forall apiResult, ((registerSession cl apiResult now).2).fetchingNewSession = false) := by
  constructor
  . simp [registerSession, hv, generateSession]
  . intro apiResult
    simp only [registerSession, hv, Bool.false_eq_true, if_false, reduceIte]
    cases hg : generateSession { cl with fetchingNewSession := true } apiResult now <;> simp

/-- Witness for C3: on the sessionless fixture a response-less failure of
the session-creation call surfaces as the `INSTALLATION_HAS_SESSION`
wrapper around the original error, with the marker cleared. -/
theorem generateSession_failure_wrapping_witness :
    registerSession freshClient (.error errNoResponse) 0 =
      (.error (.wrapped errorCodesINSTALLATION_HAS_SESSION errNoResponse),
       { freshClient with fetchingNewSession := false }) /\
    ((registerSession freshClient (.ok personResponse) 0).2).fetchingNewSession = false :=
  ⟨(generateSession_failure_wrapping freshClient errNoResponse 0 rfl).1,
   (generateSession_failure_wrapping freshClient errNoResponse 0 rfl).2 (.ok personResponse)⟩

/-- Counterexample for C3 as stated: the wrapper thrown for a failed
session-creation call carries the error code named
`INSTALLATION_HAS_SESSION` (line 229), which is not a code named
`SESSION_CREATION_FAILED` — no such code exists in the client. -/
theorem generateSession_error_code_cex :
    generateSession freshClient (.error errNoResponse) 0 =
      .error (.wrapped "INSTALLATION_HAS_SESSION" errNoResponse) /\
    errorCodesINSTALLATION_HAS_SESSION ≠ "SESSION_CREATION_FAILED" := by
  constructor
  . rfl
  . decide

/-- C9 (amended): errors raised by collaborator calls propagate to the
immediate caller, with two exceptions: the background best-effort refresh
fired by the expiry timer, whose failure is only logged, and the remote
session delete inside `destroySession`, whose failure is silently
discarded by the empty catch block (neither logged nor rethrown). -/
theorem error_propagation_policy (cl : ClientState) (e : ApiError) (msg : String)
    (now : Int) :
    (destroySession cl (.error e) now = destroySession cl (.ok ()) now /\
      (destroySession cl (.error e) now).errorLog = cl.errorLog) /\
    (cl.keepAlive = true ->
      (expiryTimerCallback cl (.error msg) now).errorLog = msg :: cl.errorLog) /\
    (verifyDeviceInstallation cl.sess = false ->
      (registerDevice cl (.error e)).1 = .error e) /\
    (verifySessionInstallation cl.sess now = false ->
      (registerSession cl (.error e) now).1 =
        .error (.wrapped errorCodesINSTALLATION_HAS_SESSION e)) := by
  refine ⟨⟨rfl, ?_⟩, ?_, ?_, ?_⟩
  . simp [destroySession, clearExpiryTimer, sessionDestroy, storeSession, ite_self]
  . intro hka
    simp only [expiryTimerCallback, hka, Bool.true_eq_false, reduceIte]
    simp [(setExpiryTimer_frame cl now true).2.2.2]
  . intro hdev
    have h1 : (registerDeviceCatch cl e).1 = e := by
      unfold registerDeviceCatch
      repeat' split
      all_goals rfl
    simp [registerDevice, hdev, h1]
  . intro hv
    simp [registerSession, hv, generateSession]

/-- Witness for C9: the timer-callback failure is logged only; device and
session registration failures propagate; the failed remote delete in
`destroySession` leaves the error log empty. -/
theorem error_propagation_policy_witness :
    (expiryTimerCallback sampleClient (.error "refresh failed") 0).errorLog =
      "refresh failed" :: sampleClient.errorLog /\
    (registerDevice noDeviceClient (.error err400)).1 = .error err400 /\
    (registerSession freshClient (.error errNoResponse) 0).1 =
      .error (.wrapped errorCodesINSTALLATION_HAS_SESSION errNoResponse) /\
    (destroySession sampleClient (.error err500) 0).errorLog = sampleClient.errorLog :=
  ⟨(error_propagation_policy sampleClient err500 "refresh failed" 0).2.1 rfl,
   (error_propagation_policy noDeviceClient err400 "m" 0).2.2.1 rfl,
   (error_propagation_policy freshClient errNoResponse "m" 0).2.2.2 rfl,
   (error_propagation_policy sampleClient err500 "m" 0).1.2⟩

/-- Counterexample for C9 as stated: `destroySession` is not the expiry
timer's background refresh, yet with a fully valid installation it
swallows the failure of the remote `sessionServer.delete()` call
silently — the run with a 500 failure is indistinguishable from the run
with a success, and nothing reaches the error log. -/
theorem destroySession_swallows_cex :
    verifySessionInstallation sampleClient.sess 0 = true /\
    destroySession sampleClient (.error err500) 0 = destroySession sampleClient (.ok ()) 0 /\
    (destroySession sampleClient (.error err500) 0).errorLog = [] /\
    sampleClient.errorLog = [] := by
  decide

/-- C1 (code behaviour at the failing input): two concurrent
`registerSession` callers that both find the session invalid each start
their own `generateSession()` — two session-creation network requests are
issued, and the second caller's promise overwrites the first in
`fetchingNewSession`, which `registerSession` never reads before
assigning (lines 190-196).  This contradicts the claimed single-flight
behaviour and the field's own doc comment (lines 31-35, "to prevent
duplicate requests"). -/
theorem registerSession_concurrent_duplicate_requests :
    (registerSessionSyncPrefix 2 (registerSessionSyncPrefix 1
      { sessionValid := false, fetchingNewSession := none, networkCalls := 0 })).networkCalls
      = 2 /\
    (registerSessionSyncPrefix 2 (registerSessionSyncPrefix 1
      { sessionValid := false, fetchingNewSession := none,
        networkCalls := 0 })).fetchingNewSession = some 2 := by
  decide

end BunqJSClient
